import Mathlib

/-!
Verification development for the weather-dashboard program
(`src/1st sem project/final project.py`).

The program is embedded shallowly: Python dict/list/str/int/None values
become the inductive type `JVal`; Python exceptions become the `Except PyExc`
monad; the network, icon decoding and the generative-text endpoint are
oracles carried in an `Env` record; user-visible effects (HTTP requests,
message boxes, the advisory text widget) are logged as a `List Event`.
Numbers are modelled as integers (the claims under verification never
depend on fractional values), and `str()` of container values approximates
the Python repr without quotation marks.
-/

/-- Model of a parsed JSON / Python value as handled by the program. -/
inductive JVal where
  | null
  | i (n : Int)
  | s (v : String)
  | list (xs : List JVal)
  | dict (fields : List (String × JVal))

/-- Model of the Python exceptions the program can raise. -/
inductive PyExc where
  | keyError (k : String)
  | indexError
  | typeError (msg : String)
  | attrError (msg : String)
  | valueError (msg : String)
deriving DecidableEq

/-- Model of `str(e)` for an exception `e`. -/
def excStr : PyExc → String
  | .keyError k => k
  | .indexError => "list index out of range"
  | .typeError m => m
  | .attrError m => m
  | .valueError m => m

mutual
/-- Model of Python `str(v)` (container repr approximated, quotes omitted). -/
def pyStr : JVal → String
  | .null => "None"
  | .i n => toString n
  | .s v => v
  | .list xs => "[" ++ pyStrList xs ++ "]"
  | .dict fs => "\x7b" ++ pyStrFields fs ++ "\x7d"

/-- Comma-separated rendering of a list value. -/
def pyStrList : List JVal → String
  | [] => ""
  | [x] => pyStr x
  | x :: xs => pyStr x ++ ", " ++ pyStrList xs

/-- Comma-separated rendering of a dict value. -/
def pyStrFields : List (String × JVal) → String
  | [] => ""
  | [(k, v)] => k ++ ": " ++ pyStr v
  | (k, v) :: fs => k ++ ": " ++ pyStr v ++ ", " ++ pyStrFields fs
end

/-- Python truthiness of a value. -/
def pyTruthy : JVal → Bool
  | .null => false
  | .i n => n != 0
  | .s v => v != ""
  | .list xs => !xs.isEmpty
  | .dict fs => !fs.isEmpty

/-- Whether a value is Python `None`. -/
def isNull : JVal → Bool
  | .null => true
  | _ => false

/-- Model of `v[k]` subscription with a string key (raises on missing key or
non-dict value). -/
def pyGetItem : JVal → String → Except PyExc JVal
  | .dict fs, k =>
    match fs.lookup k with
    | some v => .ok v
    | none => .error (.keyError k)
  | .list _, _ => .error (.typeError "list indices must be integers")
  | _, _ => .error (.typeError "value is not subscriptable")

/-- Model of `v.get(k)` (returns `None` on a missing key, raises on non-dict). -/
def pyGetOpt : JVal → String → Except PyExc JVal
  | .dict fs, k => .ok ((fs.lookup k).getD .null)
  | _, _ => .error (.attrError "value has no attribute get")

/-- Model of `v.get(k, dflt)` (raises on non-dict). -/
def pyGetD : JVal → String → JVal → Except PyExc JVal
  | .dict fs, k, dflt => .ok ((fs.lookup k).getD dflt)
  | _, _, _ => .error (.attrError "value has no attribute get")

/-- Model of `v[0]` on a value expected to be a list. -/
def pyIndex0 : JVal → Except PyExc JVal
  | .list (x :: _) => .ok x
  | .list [] => .error .indexError
  | _ => .error (.typeError "value is not subscriptable")

/-- Expect a list value (models iterating / slicing it). -/
def asList : JVal → Except PyExc (List JVal)
  | .list xs => .ok xs
  | _ => .error (.typeError "value is not iterable")

/-- Expect a string value (models string methods / the `in` operator). -/
def asStr : JVal → Except PyExc String
  | .s v => .ok v
  | _ => .error (.typeError "expected str")

/-- Expect a number (models `datetime.fromtimestamp`). -/
def asInt : JVal → Except PyExc Int
  | .i n => .ok n
  | _ => .error (.typeError "an integer is required")

/-- Model of `int(x)` (numeric strings are not modelled; they only occur
outside the verified behaviours). -/
def pyIntE : JVal → Except PyExc Int
  | .i n => .ok n
  | _ => .error (.typeError "int argument must be a number")

/-- Character-level worker for Python `str.title()`. -/
def pyTitleAux : Bool → List Char → List Char
  | _, [] => []
  | prevAlpha, c :: cs =>
    if c.isAlpha then
      (if prevAlpha then c.toLower else c.toUpper) :: pyTitleAux true cs
    else
      c :: pyTitleAux false cs

/-- Model of Python `str.title()`. -/
def pyTitle (s : String) : String := ⟨pyTitleAux false s.data⟩

/-- Model of `v.title()` on a value (raises on non-string). -/
def pyTitleE : JVal → Except PyExc String
  | .s v => .ok (pyTitle v)
  | _ => .error (.attrError "value has no attribute title")

/-- Model of the format specifier `.1f` applied to a value (integers render
with a trailing `.0`; `None` raises TypeError as in Python). -/
def pyFmt1E : JVal → Except PyExc String
  | .i n => .ok (toString n ++ ".0")
  | _ => .error (.typeError "unsupported format string passed to value")

/-- Model of the Python comparison `v != n` against an int literal
(values of a different type are unequal). -/
def pyNeInt (v : JVal) (n : Int) : Bool :=
  match v with
  | .i m => m != n
  | _ => true

/-- Whether `p` occurs at the start of `l` (character lists). -/
def chPrefix : List Char → List Char → Bool
  | [], _ => true
  | _ :: _, [] => false
  | a :: as, b :: bs => a == b && chPrefix as bs

/-- Whether `p` occurs contiguously anywhere in `l` (character lists). -/
def chContains (p : List Char) : List Char → Bool
  | [] => p.isEmpty
  | c :: t => chPrefix p (c :: t) || chContains p t

/-- Model of the Python substring test `pat in s`. -/
def pyInStr (pat s : String) : Bool := chContains pat.data s.data

/-- Split a character list on every occurrence of `sep`, keeping empty
pieces, as Python `str.split(sep)` does. -/
def splitChars (sep : Char) : List Char → List (List Char)
  | [] => [[]]
  | c :: t =>
    let r := splitChars sep t
    if c = sep then [] :: r
    else
      match r with
      | [] => [[c]]
      | h :: t2 => (c :: h) :: t2

/-- Model of Python `s.split(" ")`. -/
def pySplitSpace (s : String) : List String := (splitChars ' ' s.data).map String.mk

/-- Model of Python `s.strip()`. -/
def pyStrip (s : String) : String :=
  ⟨((s.data.dropWhile Char.isWhitespace).reverse.dropWhile Char.isWhitespace).reverse⟩

/-- Model of the `in` operator `k in v` for a string left operand. -/
def pyInOp (k : String) : JVal → Except PyExc Bool
  | .dict fs => .ok (fs.any (fun p => p.1 == k))
  | .list xs => .ok (xs.any (fun v => match v with | .s t => t == k | _ => false))
  | .s t => .ok (pyInStr k t)
  | _ => .error (.typeError "argument is not iterable")

/-- Weekday abbreviations as produced by `strftime` with format `%a`. -/
def dayNames : List String := ["Mon", "Tue", "Wed", "Thu", "Fri", "Sat", "Sun"]

/-- Zero-pad a small natural to two digits. -/
def pad2 (n : Nat) : String := if n < 10 then "0" ++ toString n else toString n

/-- Zero-pad a small integer to two digits. -/
def pad2I (n : Int) : String := if n < 10 then "0" ++ toString n else toString n

/-- Model of `datetime.fromtimestamp(epoch).strftime("%a %H:%M")`
(the local timezone is modelled as UTC). -/
def fmtAHM (epoch : Int) : String :=
  let days := epoch.ediv 86400
  let secs := (epoch.emod 86400).toNat
  dayNames.getD ((days + 3).emod 7).toNat "Mon" ++ " " ++
    pad2 (secs / 3600) ++ ":" ++ pad2 (secs % 3600 / 60)

/-- Civil date from a day count since the Unix epoch (Gregorian calendar). -/
def civilFromDays (z0 : Int) : Int × Int × Int :=
  let z := z0 + 719468
  let era := z.ediv 146097
  let doe := z.emod 146097
  let yoe := (doe - doe.ediv 1460 + doe.ediv 36524 - doe.ediv 146096).ediv 365
  let y := yoe + era * 400
  let doy := doe - (365 * yoe + yoe.ediv 4 - yoe.ediv 100)
  let mp := (5 * doy + 2).ediv 153
  let d := doy - (153 * mp + 2).ediv 5 + 1
  let m := if mp < 10 then mp + 3 else mp - 9
  (if m ≤ 2 then y + 1 else y, m, d)

/-- Model of `datetime.fromtimestamp(epoch).strftime("%Y-%m-%d %H:%M")`
(the local timezone is modelled as UTC). -/
def fmtYMDHM (epoch : Int) : String :=
  let c := civilFromDays (epoch.ediv 86400)
  let secs := (epoch.emod 86400).toNat
  toString c.1 ++ "-" ++ pad2I c.2.1 ++ "-" ++ pad2I c.2.2 ++ " " ++
    pad2 (secs / 3600) ++ ":" ++ pad2 (secs % 3600 / 60)

/-- Day count since the Unix epoch of a civil date (Gregorian calendar). -/
def daysFromCivil (y m d : Int) : Int :=
  let y2 := if m ≤ 2 then y - 1 else y
  let era := y2.ediv 400
  let yoe := y2 - era * 400
  let mp := (m + 9).emod 12
  let doy := (153 * mp + 2).ediv 5 + d - 1
  let doe := yoe * 365 + yoe.ediv 4 - yoe.ediv 100 + doy
  era * 146097 + doe - 719468

/-- Numeric value of a digit string. -/
def digitsValAux : List Char → Nat → Option Nat
  | [], acc => some acc
  | c :: t, acc => if c.isDigit then digitsValAux t (acc * 10 + (c.toNat - 48)) else none

/-- Parse a non-empty all-digit character list. -/
def digitsVal (cs : List Char) : Option Nat :=
  if cs.isEmpty then none else digitsValAux cs 0

/-- Gregorian leap-year test. -/
def isLeap (y : Int) : Bool := (y.emod 4 == 0 && y.emod 100 != 0) || y.emod 400 == 0

/-- Days in a month of the Gregorian calendar. -/
def daysInMonth (y m : Int) : Int :=
  if m = 2 then (if isLeap y then 29 else 28)
  else if m = 4 ∨ m = 6 ∨ m = 9 ∨ m = 11 then 30
  else 31

/-- Model of `datetime.strptime(s, "%Y-%m-%d")`, yielding the civil date. -/
def strptimeYMD (s : String) : Except PyExc (Int × Int × Int) :=
  match (splitChars '-' s.data).map digitsVal with
  | [some y, some m, some d] =>
    if 1 ≤ m ∧ m ≤ 12 ∧ 1 ≤ d ∧ (d : Int) ≤ daysInMonth (y : Int) (m : Int) then
      .ok ((y : Int), (m : Int), (d : Int))
    else .error (.valueError "time data does not match format")
  | _ => .error (.valueError "time data does not match format")

/-- Weekday abbreviation of a civil date. -/
def dayNameOf (y m d : Int) : String :=
  dayNames.getD ((daysFromCivil y m d + 3).emod 7).toNat "Mon"

/-- Model of `datetime.strptime(date, "%Y-%m-%d").strftime("%a")`. -/
def strptimeDayName (date : String) : Except PyExc String :=
  (strptimeYMD date).map (fun t => dayNameOf t.1 t.2.1 t.2.2)

/-! ### The advisory generator (`analyze_weather_with_ai`, lines 40-109) -/

/-- The ordered model fallback list (source lines 87-92). -/
def models_to_try : List String :=
  ["gemini-2.0-flash-lite", "gemini-flash-latest", "gemini-2.0-flash", "gemini-2.0-flash-exp"]

/-- Model of `str(last_error)` for the accumulated last error. -/
def pyStrOfLastError : Option String → String
  | none => "None"
  | some e => e

/-- The fixed-format unavailability message of source line 106. -/
def unavailMsg (lastErr : Option String) : String :=
  "AI Analysis currently unavailable (Quota limit reached). Please try again later.\nDetails: " ++
    pyStrOfLastError lastErr

/-- The model fallback loop of source lines 94-106, instrumented with the
list of models actually attempted. `gen model prompt` is the oracle for
`genai.GenerativeModel(model).generate_content(prompt).text`, whose failure
carries `str(e)` of the raised exception. -/
def tryModelsTrace (gen : String → String → Except String String) (prompt : String) :
    List String → Option String → List String × String
  | [], lastErr => ([], unavailMsg lastErr)
  | m :: rest, _lastErr =>
    match gen m prompt with
    | .ok t => ([m], t)
    | .error e =>
      let r := tryModelsTrace gen prompt rest (some e)
      (m :: r.1, r.2)

/-- One line of the forecast summary built in source lines 52-61. -/
def summaryLine (f : JVal) : Except PyExc String := do
  let dtv ← pyGetItem f "dt"
  let n ← asInt dtv
  let temp ← pyGetItem f "main" >>= fun m => pyGetItem m "temp"
  let feels ← pyGetItem f "main" >>= fun m => pyGetItem m "feels_like"
  let humidity ← pyGetItem f "main" >>= fun m => pyGetItem m "humidity"
  let desc ← pyGetItem f "weather" >>= pyIndex0 >>= fun w => pyGetItem w "description"
  let ws ← pyGetItem f "wind" >>= fun w => pyGetItem w "speed"
  pure (fmtYMDHM n ++ ": " ++ pyStr temp ++ "¬∞C (feels " ++ pyStr feels ++ "¬∞C), " ++
    pyStr desc ++ ", Humidity: " ++ pyStr humidity ++ "%, Wind: " ++ pyStr ws ++ " m/s")

/-- Sequential summary of a list of forecast entries. -/
def summaryLines : List JVal → Except PyExc (List String)
  | [] => .ok []
  | f :: fs => do
    let l ← summaryLine f
    let ls ← summaryLines fs
    pure (l :: ls)

/-- The forecast-summary extraction of source lines 50-61, including the
truthiness and membership guard `if forecast_data and 'list' in forecast_data`. -/
def forecastSummary (forecast_data : JVal) : Except PyExc (List String) := do
  if pyTruthy forecast_data then
    let hasList ← pyInOp "list" forecast_data
    if hasList then
      let lv ← pyGetItem forecast_data "list"
      let lst ← asList lv
      summaryLines (lst.take 8)
    else pure []
  else pure []

/-- The prompt assembly of source lines 42-84 (everything of the
`try` body that precedes the model loop). -/
def buildPrompt (weather_data forecast_data : JVal) : Except PyExc String := do
  let current ← pyGetD weather_data "main" (.dict [])
  let wl ← pyGetD weather_data "weather" (.list [.dict []])
  let w0 ← pyIndex0 wl
  let weather_desc ← pyGetD w0 "description" (.s "N/A")
  let city_name ← pyGetD weather_data "name" (.s "Unknown")
  let wind ← pyGetD weather_data "wind" (.dict [])
  let fsum ← forecastSummary forecast_data
  let temp ← pyGetD current "temp" (.s "N/A")
  let feels ← pyGetD current "feels_like" (.s "N/A")
  let hum ← pyGetD current "humidity" (.s "N/A")
  let press ← pyGetD current "pressure" (.s "N/A")
  let wsp ← pyGetD wind "speed" (.s "N/A")
  pure ("You are a professional meteorologist. Analyze this weather data for " ++
    pyStr city_name ++ " and provide practical advice:\n\nCURRENT CONDITIONS:\n- Temperature: " ++
    pyStr temp ++ "¬∞C\n- Feels Like: " ++ pyStr feels ++ "¬∞C\n- Humidity: " ++
    pyStr hum ++ "%\n- Pressure: " ++ pyStr press ++ " hPa\n- Weather: " ++
    pyStr weather_desc ++ "\n- Wind Speed: " ++ pyStr wsp ++
    " m/s\n\n24-HOUR FORECAST:\n" ++ "\n".intercalate fsum ++
    "\n\nBased on this complete weather data, provide expert advice on:\n1. Health and wellness impact\n2. Best activities for today\n3. What to wear\n4. Travel conditions\n5. Any weather warnings or precautions\n\nKeep your response conversational and practical, around 150-200 words.")

/-- The body of the outer `try` of `analyze_weather_with_ai`: build the
prompt, then run the model fallback loop. -/
def analyzeInner (gen : String → String → Except String String) (w f : JVal) :
    Except PyExc String := do
  let prompt ← buildPrompt w f
  pure (tryModelsTrace gen prompt models_to_try none).2

/-- Model of `analyze_weather_with_ai` (source lines 40-109). A Python
caller observes an `Except`-valued behaviour; the outer `try/except`
(lines 42, 108-109) converts every internal failure into a returned message. -/
def analyze_weather_with_ai (gen : String → String → Except String String) (w f : JVal) :
    Except PyExc String :=
  match analyzeInner gen w f with
  | .ok s => .ok s
  | .error e => .ok ("AI Analysis unavailable: " ++ excStr e)

/-! ### The forecast aggregator (`display_forecast`, lines 260-305) -/

/-- Extraction `x['dt_txt']` as a string (the grouping splits it, the
noon test applies `in` to it; both need a string). -/
def dtTxtStrE (f : JVal) : Except PyExc String :=
  match pyGetItem f "dt_txt" with
  | .error e => .error e
  | .ok v => asStr v

/-- The date key `f['dt_txt'].split(" ")[0]` of source line 269. -/
def dateKeyE (f : JVal) : Except PyExc String :=
  match dtTxtStrE f with
  | .error e => .error e
  | .ok s => .ok ((pySplitSpace s).headD "")

/-- Model of `daily.setdefault(d, []).append(f)` on an insertion-ordered
dict represented as an association list. -/
def insertDay : List (String × List JVal) → String → JVal → List (String × List JVal)
  | [], d, f => [(d, [f])]
  | (k, b) :: rest, d, f =>
    if k = d then (k, b ++ [f]) :: rest
    else (k, b) :: insertDay rest d f

/-- The grouping loop of source lines 267-270, with explicit accumulator. -/
def dailyGroupsAux : List JVal → List (String × List JVal) →
    Except PyExc (List (String × List JVal))
  | [], acc => .ok acc
  | f :: fs, acc =>
    match dateKeyE f with
    | .error e => .error e
    | .ok d => dailyGroupsAux fs (insertDay acc d f)

/-- The grouping of forecast entries by calendar day (source lines 266-270). -/
def dailyGroups (entries : List JVal) : Except PyExc (List (String × List JVal)) :=
  dailyGroupsAux entries []

/-- Model of Python list indexing `l[n]` for a non-negative index. -/
def pyIndexList (l : List JVal) (n : Nat) : Except PyExc JVal :=
  match l.get? n with
  | some x => .ok x
  | none => .error .indexError

/-- The generator predicate `"12:00:00" in x['dt_txt']` of source line 275. -/
def noonHit (f : JVal) : Except PyExc Bool :=
  match dtTxtStrE f with
  | .error e => .error e
  | .ok s => .ok (pyInStr "12:00:00" s)

/-- The `next(...)` scan of source line 275 with an already-computed default. -/
def firstNoon : List JVal → JVal → Except PyExc JVal
  | [], dflt => .ok dflt
  | x :: xs, dflt =>
    match noonHit x with
    | .error e => .error e
    | .ok b => if b then .ok x else firstNoon xs dflt

/-- The representative selection of source line 275:
`next((x for x in forecasts if "12:00:00" in x['dt_txt']), forecasts[len(forecasts)//2])`.
Python evaluates the default argument before scanning the generator. -/
def pickMid (forecasts : List JVal) : Except PyExc JVal :=
  match pyIndexList forecasts (forecasts.length / 2) with
  | .error e => .error e
  | .ok dflt => firstNoon forecasts dflt

/-! ### Environment, effects, and the display / fetch layer -/

/-- The oracles of one program run: the text in the city entry widget and
the outcomes of the external calls. -/
structure Env where
  cityText : String
  weatherNet : Except String JVal
  forecastNet : Except String (Int × JVal)
  iconNet : String → Except String Unit
  gen : String → String → Except String String

/-- User-visible effects of a run. -/
inductive Event where
  | netReq (url : String)
  | warnBox (title msg : String)
  | errBox (title msg : String)
  | iconDisplayed (url : String)
  | advisoryShown (text : String)
deriving DecidableEq

/-- The current-conditions endpoint (source line 30). -/
def BASE_URL : String := "https://api.openweathermap.org/data/2.5/weather"

/-- The forecast endpoint (source line 243). -/
def FORECAST_URL : String := "http://api.openweathermap.org/data/2.5/forecast"

/-- The icon asset URL of source line 222. -/
def iconUrl4 (code : String) : String :=
  "http://openweathermap.org/img/wn/" ++ code ++ "@4x.png"

/-- The icon asset URL of source line 291. -/
def iconUrl2 (code : String) : String :=
  "http://openweathermap.org/img/wn/" ++ code ++ "@2x.png"

/-- Events of one `try: requests.get(icon_url) ... except: pass` icon block:
the request is always issued; the icon is displayed only when fetching and
decoding succeed, and a failure is silently swallowed. -/
def iconEvents (env : Env) (url : String) : List Event :=
  match env.iconNet url with
  | .ok _ => [.netReq url, .iconDisplayed url]
  | .error _ => [.netReq url]

/-- The per-card data extraction of source lines 275-281: representative
entry, its temperature and icon, and the weekday name of the date label. -/
def dayCardData (date : String) (forecasts : List JVal) : Except PyExc (JVal × String) := do
  let mid ← pickMid forecasts
  let temp ← pyGetItem mid "main" >>= fun m => pyGetItem m "temp"
  let icon ← pyGetItem mid "weather" >>= pyIndex0 >>= fun w => pyGetItem w "icon"
  let _day ← strptimeDayName date
  pure (temp, pyStr icon)

/-- One day card of source lines 274-305 (icon block, then the
`int(temp)` temperature label). -/
def dayCard (env : Env) (date : String) (forecasts : List JVal) :
    List Event × Except PyExc Unit :=
  match dayCardData date forecasts with
  | .error e => ([], .error e)
  | .ok (temp, iconS) =>
    match pyIntE temp with
    | .error e => (iconEvents env (iconUrl2 iconS), .error e)
    | .ok _ => (iconEvents env (iconUrl2 iconS), .ok ())

/-- The card loop of source lines 273-305 over the selected days. -/
def renderDayCards (env : Env) : List (String × List JVal) → List Event × Except PyExc Unit
  | [] => ([], .ok ())
  | (date, fcs) :: rest =>
    match dayCard env date fcs with
    | (evts, .error e) => (evts, .error e)
    | (evts, .ok _) =>
      let r := renderDayCards env rest
      (evts ++ r.1, r.2)

/-- Model of `display_forecast` (source lines 260-305): group by day, then
render a card for each of the first five days. -/
def display_forecast (env : Env) (data : JVal) : List Event × Except PyExc Unit :=
  match pyGetItem data "list" >>= asList with
  | .error e => ([], .error e)
  | .ok lst =>
    match dailyGroups lst with
    | .error e => ([], .error e)
    | .ok daily => renderDayCards env (daily.take 5)

/-- One row of the hourly table (source lines 314-321). -/
structure Row where
  timeS : String
  tempS : String
  weatherS : String
  windS : String
  humS : String
deriving DecidableEq

/-- The per-entry extraction of source lines 315-319, in source order. -/
def rowOf (f : JVal) : Except PyExc Row := do
  let dtv ← pyGetItem f "dt"
  let n ← asInt dtv
  let temp ← pyGetItem f "main" >>= fun m => pyGetItem m "temp"
  let tempS ← pyFmt1E temp
  let desc ← pyGetItem f "weather" >>= pyIndex0 >>= fun w => pyGetItem w "description"
  let descS ← pyTitleE desc
  let wind ← pyGetItem f "wind" >>= fun w => pyGetItem w "speed"
  let hum ← pyGetItem f "main" >>= fun m => pyGetItem m "humidity"
  pure ⟨fmtAHM n, tempS, descS, pyStr wind, pyStr hum⟩

/-- Sequentially build the table rows. -/
def rowsOf : List JVal → Except PyExc (List Row)
  | [] => .ok []
  | f :: fs =>
    match rowOf f with
    | .error e => .error e
    | .ok r =>
      match rowsOf fs with
      | .error e => .error e
      | .ok rs => .ok (r :: rs)

/-- Model of `display_forecast_table` (source lines 307-321): the rows
inserted into the table come from `data['list'][:24]` in order. -/
def display_forecast_table (data : JVal) : Except PyExc (List Row) := do
  let lv ← pyGetItem data "list"
  let lst ← asList lv
  rowsOf (lst.take 24)

/-- The data extraction and label formatting of `get_weather`
(source lines 186-217 plus the truthy icon test of line 220); returns
`icon_code`. Every partial step is performed in source order. -/
def weatherExtract (city : String) (data : JVal) : Except PyExc JVal := do
  let _city_name ← pyGetD data "name" (.s city)
  let main ← pyGetD data "main" (.dict [])
  let weather_list ← pyGetD data "weather" (.list [])
  let wind ← pyGetD data "wind" (.dict [])
  let temp ← pyGetOpt main "temp"
  let _humidity ← pyGetOpt main "humidity"
  let _pressure ← pyGetOpt main "pressure"
  let feels_like ← pyGetOpt main "feels_like"
  let description ←
    if pyTruthy weather_list then pyIndex0 weather_list >>= fun w0 => pyGetOpt w0 "description"
    else pure (JVal.s "N/A")
  let icon_code ←
    if pyTruthy weather_list then pyIndex0 weather_list >>= fun w0 => pyGetOpt w0 "icon"
    else pure JVal.null
  let _wind_speed ← pyGetOpt wind "speed"
  let coord ← pyGetD data "coord" (.dict [])
  let lat ← pyGetOpt coord "lat"
  let _lon ← if pyTruthy lat then pyGetOpt coord "lon" else pure JVal.null
  let _tempLbl ← if isNull temp then pure "" else (pyIntE temp).map toString
  let _descLbl ← pyTitleE description
  let _feelsLbl ← pyFmt1E feels_like
  pure icon_code

/-- The response handling of `get_weather` after a successful transport
call (source lines 181-233). -/
def weatherHandle (env : Env) (city : String) (data : JVal) :
    List Event × Except PyExc (Option JVal) :=
  match pyGetOpt data "cod" with
  | .error e => ([.netReq BASE_URL], .error e)
  | .ok codv =>
    if pyNeInt codv 200 then
      match pyGetD data "message" (.s "Unknown error") with
      | .error e => ([.netReq BASE_URL], .error e)
      | .ok msg =>
        ([.netReq BASE_URL, .errBox "API error" ("Error from API:\n" ++ pyStr msg)], .ok none)
    else
      match weatherExtract city data with
      | .error e => ([.netReq BASE_URL], .error e)
      | .ok icon_code =>
        if pyTruthy icon_code then
          (.netReq BASE_URL :: iconEvents env (iconUrl4 (pyStr icon_code)), .ok (some data))
        else ([.netReq BASE_URL], .ok (some data))

/-- Model of `get_weather` (source lines 164-233). -/
def get_weather (env : Env) : List Event × Except PyExc (Option JVal) :=
  if pyStrip env.cityText = "" then
    ([.warnBox "Input error" "Please enter a city name."], .ok none)
  else
    match env.weatherNet with
    | .error e =>
      ([.netReq BASE_URL, .errBox "Network error" ("Could not reach server:\n" ++ e)], .ok none)
    | .ok data => weatherHandle env (pyStrip env.cityText) data

/-- The two rendering steps of the forecast success path
(source lines 250-251). -/
def forecastRender (env : Env) (data : JVal) : List Event × Except PyExc Unit :=
  match display_forecast env data with
  | (evts, .error e) => (evts, .error e)
  | (evts, .ok _) =>
    match display_forecast_table data with
    | .error e => (evts, .error e)
    | .ok _ => (evts, .ok ())

/-- Model of `get_forecast` (source lines 235-258). The success test is on
the transport status code `response.status_code`, not on the payload. -/
def get_forecast (env : Env) : List Event × Except PyExc (Option JVal) :=
  if pyStrip env.cityText = "" then
    ([.warnBox "Input error" "Please enter a city name."], .ok none)
  else
    match env.forecastNet with
    | .error e =>
      ([.netReq FORECAST_URL, .errBox "Network error" ("Could not reach server:\n" ++ e)], .ok none)
    | .ok (status, data) =>
      if status = 200 then
        match forecastRender env data with
        | (evts, .error e) => (.netReq FORECAST_URL :: evts, .error e)
        | (evts, .ok _) => (.netReq FORECAST_URL :: evts, .ok (some data))
      else
        match pyGetD data "message" (.s "Could not fetch forecast") with
        | .error e => ([.netReq FORECAST_URL], .error e)
        | .ok msg => ([.netReq FORECAST_URL, .errBox "API error" (pyStr msg)], .ok none)

/-- Python truthiness of a fetcher result (`None` is falsy). -/
def pyTruthyOpt : Option JVal → Bool
  | none => false
  | some v => pyTruthy v

/-- Model of `get_all_data` (source lines 111-125): guard the city input,
fetch current weather then forecast, and run the advisory generator only
when both results are truthy. -/
def get_all_data (env : Env) : List Event × Except PyExc Unit :=
  if pyStrip env.cityText = "" then
    ([.warnBox "Input error" "Please enter a city name."], .ok ())
  else
    match get_weather env with
    | (evts, .error e) => (evts, .error e)
    | (evts, .ok wres) =>
      match get_forecast env with
      | (evts2, .error e) => (evts ++ evts2, .error e)
      | (evts2, .ok fres) =>
        if pyTruthyOpt wres && pyTruthyOpt fres then
          match analyze_weather_with_ai env.gen (wres.getD .null) (fres.getD .null) with
          | .error e => (evts ++ evts2, .error e)
          | .ok ai => (evts ++ evts2 ++ [.advisoryShown ai], .ok ())
        else (evts ++ evts2, .ok ())

/-! ### Helper lemmas -/

/-- Every string is a prefix of itself. -/
theorem chPrefix_self (l : List Char) : chPrefix l l = true := by
  induction l with
  | nil => rfl
  | cons c t ih => simp [chPrefix, ih]

/-- A string contains its own suffix. -/
theorem chContains_append_right (p x : List Char) : chContains p (x ++ p) = true := by
  induction x with
  | nil =>
    cases p with
    | nil => rfl
    | cons c t => simp [chContains, chPrefix_self]
  | cons c t ih => simp [chContains, ih]

/-- The substring test succeeds on an appended copy of the pattern. -/
theorem pyInStr_append_self (pre pat : String) : pyInStr pat (pre ++ pat) = true := by
  show chContains pat.data (pre ++ pat).data = true
  have hd : (pre ++ pat).data = pre.data ++ pat.data := rfl
  rw [hd]
  exact chContains_append_right _ _

/-- The advisory function always returns a message: the outer handler
turns every internal failure into an `ok` string. -/
theorem analyze_total (gen : String → String → Except String String) (w f : JVal) :
    ∃ s, analyze_weather_with_ai gen w f = .ok s := by
  unfold analyze_weather_with_ai
  cases h : analyzeInner gen w f with
  | ok s => exact ⟨s, rfl⟩
  | error e => exact ⟨_, rfl⟩

/-- C10: for every pair of weather and forecast inputs — malformed or not —
and every behaviour of the generative endpoint, `analyze_weather_with_ai`
returns a string and never propagates an exception to its caller. -/
theorem claim_C10 (gen : String → String → Except String String) (w f : JVal) :
    ∃ s, analyze_weather_with_ai gen w f = .ok s := by
  unfold analyze_weather_with_ai
  cases h : analyzeInner gen w f with
  | ok s => exact ⟨s, rfl⟩
  | error e => exact ⟨_, rfl⟩

/-- C3: if the first model of the fallback list fails and the second
succeeds, the advisory generator returns the second model's text and the
attempted models are exactly the first two. -/
theorem claim_C3 (gen : String → String → Except String String) (w f : JVal) (p e t : String)
    (hp : buildPrompt w f = .ok p)
    (h1 : gen "gemini-2.0-flash-lite" p = .error e)
    (h2 : gen "gemini-flash-latest" p = .ok t) :
    tryModelsTrace gen p models_to_try none =
      (["gemini-2.0-flash-lite", "gemini-flash-latest"], t)
    ∧ analyze_weather_with_ai gen w f = .ok t := by
  have hloop : tryModelsTrace gen p models_to_try none =
      (["gemini-2.0-flash-lite", "gemini-flash-latest"], t) := by
    simp [models_to_try, tryModelsTrace, h1, h2]
  refine ⟨hloop, ?_⟩
  unfold analyze_weather_with_ai analyzeInner
  simp [hp, hloop]

/-- C4: if every model of the fallback list fails, the generator returns
the fixed-format unavailability message built from the failure detail of
the last attempted model, and that detail occurs in the message. -/
theorem claim_C4 (gen : String → String → Except String String) (w f : JVal)
    (p e1 e2 e3 e4 : String)
    (hp : buildPrompt w f = .ok p)
    (h1 : gen "gemini-2.0-flash-lite" p = .error e1)
    (h2 : gen "gemini-flash-latest" p = .error e2)
    (h3 : gen "gemini-2.0-flash" p = .error e3)
    (h4 : gen "gemini-2.0-flash-exp" p = .error e4) :
    tryModelsTrace gen p models_to_try none = (models_to_try, unavailMsg (some e4))
    ∧ analyze_weather_with_ai gen w f = .ok (unavailMsg (some e4))
    ∧ unavailMsg (some e4) =
        "AI Analysis currently unavailable (Quota limit reached). Please try again later.\nDetails: "
          ++ e4
    ∧ pyInStr e4 (unavailMsg (some e4)) = true := by
  have hloop : tryModelsTrace gen p models_to_try none = (models_to_try, unavailMsg (some e4)) := by
    simp [models_to_try, tryModelsTrace, h1, h2, h3, h4]
  refine ⟨hloop, ?_, rfl, ?_⟩
  · unfold analyze_weather_with_ai analyzeInner
    simp [hp, hloop]
  · exact pyInStr_append_self _ e4

/-- A generative oracle whose first model fails and whose later models
succeed; used to witness the fallback behaviour. -/
def genSecondOk : String → String → Except String String :=
  fun m _ => if m = "gemini-2.0-flash-lite" then .error "quota" else .ok "advice"

/-- A generative oracle on which every model fails. -/
def genAllFail : String → String → Except String String :=
  fun m _ => .error ("down " ++ m)

/-- The prompt actually built for a pair of inputs (empty on failure). -/
def promptOf (w f : JVal) : String :=
  match buildPrompt w f with
  | .ok p => p
  | .error _ => ""

theorem claim_C3_witness :
    tryModelsTrace genSecondOk (promptOf (JVal.dict []) JVal.null) models_to_try none =
      (["gemini-2.0-flash-lite", "gemini-flash-latest"], "advice")
    ∧ analyze_weather_with_ai genSecondOk (JVal.dict []) JVal.null = .ok "advice" :=
  claim_C3 genSecondOk (JVal.dict []) JVal.null (promptOf (JVal.dict []) JVal.null)
    "quota" "advice" rfl rfl rfl

theorem claim_C4_witness :
    tryModelsTrace genAllFail (promptOf (JVal.dict []) JVal.null) models_to_try none =
      (models_to_try, unavailMsg (some "down gemini-2.0-flash-exp"))
    ∧ analyze_weather_with_ai genAllFail (JVal.dict []) JVal.null =
        .ok (unavailMsg (some "down gemini-2.0-flash-exp"))
    ∧ unavailMsg (some "down gemini-2.0-flash-exp") =
        "AI Analysis currently unavailable (Quota limit reached). Please try again later.\nDetails: "
          ++ "down gemini-2.0-flash-exp"
    ∧ pyInStr "down gemini-2.0-flash-exp"
        (unavailMsg (some "down gemini-2.0-flash-exp")) = true :=
  claim_C4 genAllFail (JVal.dict []) JVal.null (promptOf (JVal.dict []) JVal.null)
    "down gemini-2.0-flash-lite" "down gemini-flash-latest" "down gemini-2.0-flash"
    "down gemini-2.0-flash-exp" rfl rfl rfl rfl rfl

/-- C5: for an empty (after stripping) city name, `get_all_data` reports an
input error and returns without issuing any network request; neither
fetcher, called directly, would issue one either. -/
theorem claim_C5 (env : Env) (h : pyStrip env.cityText = "") :
    get_all_data env = ([.warnBox "Input error" "Please enter a city name."], .ok ())
    ∧ get_weather env = ([.warnBox "Input error" "Please enter a city name."], .ok none)
    ∧ get_forecast env = ([.warnBox "Input error" "Please enter a city name."], .ok none)
    ∧ ∀ u, Event.netReq u ∉ (get_all_data env).1 := by
  refine ⟨?_, ?_, ?_, ?_⟩
  · simp [get_all_data, h]
  · simp [get_weather, h]
  · simp [get_forecast, h]
  · intro u
    simp [get_all_data, h]

/-- An environment whose city entry holds only whitespace. -/
def envBlank : Env :=
  ⟨"   ", .error "unused", .error "unused", fun _ => .ok (), fun _ _ => .ok "t"⟩

theorem claim_C5_witness :
    get_all_data envBlank = ([.warnBox "Input error" "Please enter a city name."], .ok ())
    ∧ get_weather envBlank = ([.warnBox "Input error" "Please enter a city name."], .ok none)
    ∧ get_forecast envBlank = ([.warnBox "Input error" "Please enter a city name."], .ok none)
    ∧ ∀ u, Event.netReq u ∉ (get_all_data envBlank).1 :=
  claim_C5 envBlank rfl

/-- Sequential row building succeeds exactly rowwise: lengths agree. -/
theorem rowsOf_ok_length {l : List JVal} {rows : List Row} (h : rowsOf l = .ok rows) :
    rows.length = l.length := by
  induction l generalizing rows with
  | nil =>
    simp only [rowsOf] at h
    cases h
    rfl
  | cons f fs ih =>
    simp only [rowsOf] at h
    cases hr : rowOf f with
    | error e => rw [hr] at h; cases h
    | ok r =>
      rw [hr] at h
      cases hrs : rowsOf fs with
      | error e => rw [hrs] at h; cases h
      | ok rs =>
        rw [hrs] at h
        cases h
        simp [ih hrs]

/-- Sequential row building is pointwise `rowOf`. -/
theorem rowsOf_ok_get {l : List JVal} {rows : List Row} (h : rowsOf l = .ok rows) :
    ∀ i f, l.get? i = some f → ∃ r, rows.get? i = some r ∧ rowOf f = .ok r := by
  induction l generalizing rows with
  | nil => intro i f hf; simp at hf
  | cons g gs ih =>
    intro i f hf
    simp only [rowsOf] at h
    cases hr : rowOf g with
    | error e => rw [hr] at h; cases h
    | ok r =>
      rw [hr] at h
      cases hrs : rowsOf gs with
      | error e => rw [hrs] at h; cases h
      | ok rs =>
        rw [hrs] at h
        cases h
        cases i with
        | zero =>
          simp at hf
          subst hf
          exact ⟨r, rfl, hr⟩
        | succ j =>
          simp only [List.get?] at hf ⊢
          exact ih hrs j f hf

/-- C7: the hourly display is the flat truncation of the forecast list to
its first 24 entries in original order — row `i` is derived (by the
source's per-entry extraction) from entry `i`, for every `i < min 24 len`. -/
theorem claim_C7 (data : JVal) (fs : List (String × JVal)) (lst : List JVal) (rows : List Row)
    (hd : data = JVal.dict fs)
    (hl : fs.lookup "list" = some (.list lst))
    (hr : display_forecast_table data = .ok rows) :
    rows.length = min 24 lst.length
    ∧ ∀ i f, i < 24 → lst.get? i = some f →
        ∃ r, rows.get? i = some r ∧ rowOf f = .ok r := by
  have hrows : rowsOf (lst.take 24) = .ok rows := by
    subst hd
    simp [display_forecast_table, pyGetItem, hl, asList] at hr
    exact hr
  constructor
  · rw [rowsOf_ok_length hrows, List.length_take]
  · intro i f hi hf
    have htake : (lst.take 24).get? i = some f := by
      rw [List.get?_take hi]
      exact hf
    exact rowsOf_ok_get hrows i f htake

/-- A single well-formed forecast entry used by concrete witnesses. -/
def entry0 : JVal :=
  .dict [("dt", .i 0), ("dt_txt", .s "1970-01-01 00:00:00"),
    ("main", .dict [("temp", .i 20), ("feels_like", .i 19), ("humidity", .i 50)]),
    ("weather", .list [.dict [("description", .s "clear sky"), ("icon", .s "01d")]]),
    ("wind", .dict [("speed", .i 3)])]

/-- The forecast list of the C7 witness. -/
def lst7 : List JVal := [entry0]

/-- The payload of the C7 witness. -/
def data7 : JVal := .dict [("list", .list lst7)]

/-- The rows the table model produces for the C7 witness payload. -/
def rows7 : List Row :=
  match display_forecast_table data7 with
  | .ok r => r
  | .error _ => []

theorem claim_C7_witness : rows7.length = min 24 lst7.length :=
  (claim_C7 data7 [("list", .list lst7)] lst7 rows7 rfl rfl rfl).1

/-! ### Aggregator lemmas -/

/-- Inserting into the day grouping either leaves the key list unchanged
(existing day) or appends the new day at the end. -/
theorem insertDay_fst (acc : List (String × List JVal)) (d : String) (f : JVal) :
    (insertDay acc d f).map Prod.fst =
      if d ∈ acc.map Prod.fst then acc.map Prod.fst else acc.map Prod.fst ++ [d] := by
  induction acc with
  | nil => simp [insertDay]
  | cons p rest ih =>
    obtain ⟨k, b⟩ := p
    by_cases hk : k = d
    · subst hk
      simp [insertDay]
    · simp only [insertDay, if_neg hk, List.map_cons, ih]
      by_cases hd : d ∈ rest.map Prod.fst
      · have hin : d ∈ (k :: rest.map Prod.fst) := List.mem_cons_of_mem _ hd
        rw [if_pos hd, if_pos hin]
      · have hne : d ∉ (k :: rest.map Prod.fst) := by
          intro h
          rcases List.mem_cons.mp h with h1 | h2
          · exact hk h1.symm
          · exact hd h2
        rw [if_neg hd, if_neg hne, List.cons_append]

/-- Insertion preserves distinctness of the day keys. -/
theorem insertDay_nodup (acc : List (String × List JVal)) (d : String) (f : JVal)
    (h : (acc.map Prod.fst).Nodup) : ((insertDay acc d f).map Prod.fst).Nodup := by
  rw [insertDay_fst]
  by_cases hd : d ∈ acc.map Prod.fst
  · rwa [if_pos hd]
  · rw [if_neg hd]
    simp [List.nodup_append, h, hd]

/-- After insertion the inserted day is among the keys. -/
theorem insertDay_key_mem (acc : List (String × List JVal)) (d : String) (f : JVal) :
    d ∈ (insertDay acc d f).map Prod.fst := by
  rw [insertDay_fst]
  by_cases hd : d ∈ acc.map Prod.fst
  · rwa [if_pos hd]
  · rw [if_neg hd]
    simp

/-- Insertion never drops a key. -/
theorem insertDay_keys_sub (acc : List (String × List JVal)) (d : String) (f : JVal) :
    acc.map Prod.fst ⊆ (insertDay acc d f).map Prod.fst := by
  rw [insertDay_fst]
  by_cases hd : d ∈ acc.map Prod.fst
  · rw [if_pos hd]
    exact fun x hx => hx
  · rw [if_neg hd]
    exact List.subset_append_left _ _

/-- Shape of a bucket after insertion: untouched, extended by `f` at the
inserted key, or freshly created as `[f]`. -/
theorem insertDay_buckets (acc : List (String × List JVal)) (d : String) (f : JVal)
    (q : String × List JVal) (hq : q ∈ insertDay acc d f) :
    q ∈ acc ∨ (∃ b0, q = (d, b0 ++ [f]) ∧ (d, b0) ∈ acc) ∨ q = (d, [f]) := by
  induction acc with
  | nil =>
    simp only [insertDay, List.mem_singleton] at hq
    right; right; exact hq
  | cons p rest ih =>
    obtain ⟨k, b⟩ := p
    by_cases hk : k = d
    · subst hk
      simp only [insertDay, if_pos rfl] at hq
      rcases List.mem_cons.mp hq with h1 | h2
      · right; left; exact ⟨b, h1, List.mem_cons_self _ _⟩
      · left; exact List.mem_cons_of_mem _ h2
    · simp only [insertDay, if_neg hk] at hq
      rcases List.mem_cons.mp hq with h1 | h2
      · left; rw [h1]; exact List.mem_cons_self _ _
      · rcases ih h2 with ha | hb | hc
        · left; exact List.mem_cons_of_mem _ ha
        · right; left
          rcases hb with ⟨b0, hb1, hb2⟩
          exact ⟨b0, hb1, List.mem_cons_of_mem _ hb2⟩
        · right; right; exact hc

/-- The invariant each daily bucket maintains: non-empty, all entries carry
the bucket's date key, and all entries come from the source list. -/
def BucketInv (src : List JVal) (q : String × List JVal) : Prop :=
  q.2 ≠ [] ∧ ∀ x ∈ q.2, dateKeyE x = .ok q.1 ∧ x ∈ src

/-- Insertion preserves the bucket invariant. -/
theorem insertDay_inv (src : List JVal) (acc : List (String × List JVal)) (d : String)
    (f : JVal) (hacc : ∀ q ∈ acc, BucketInv src q)
    (hf : dateKeyE f = .ok d) (hfs : f ∈ src) :
    ∀ q ∈ insertDay acc d f, BucketInv src q := by
  intro q hq
  rcases insertDay_buckets acc d f q hq with ha | hb | hc
  · exact hacc q ha
  · rcases hb with ⟨b0, hq1, hb2⟩
    subst hq1
    obtain ⟨_, h0⟩ := hacc _ hb2
    refine ⟨by simp, ?_⟩
    intro x hx
    rcases List.mem_append.mp hx with h1 | h2
    · exact h0 x h1
    · rw [List.mem_singleton.mp h2]
      exact ⟨hf, hfs⟩
  · subst hc
    refine ⟨by simp, ?_⟩
    intro x hx
    rw [List.mem_singleton.mp hx]
    exact ⟨hf, hfs⟩

/-- Combined traversal invariant of the grouping loop: key distinctness is
preserved, keys only grow, every produced bucket satisfies the bucket
invariant, and every successfully dated entry's day appears among the keys. -/
theorem dailyGroupsAux_inv (src : List JVal) :
    ∀ (fs : List JVal) (acc gs : List (String × List JVal)),
    dailyGroupsAux fs acc = .ok gs →
    (∀ q ∈ acc, BucketInv src q) →
    (∀ f ∈ fs, f ∈ src) →
    ((acc.map Prod.fst).Nodup → (gs.map Prod.fst).Nodup)
    ∧ (acc.map Prod.fst ⊆ gs.map Prod.fst)
    ∧ (∀ q ∈ gs, BucketInv src q)
    ∧ (∀ f ∈ fs, ∀ d, dateKeyE f = .ok d → d ∈ gs.map Prod.fst) := by
  intro fs
  induction fs with
  | nil =>
    intro acc gs h hacc _
    simp only [dailyGroupsAux] at h
    cases h
    exact ⟨id, fun x hx => hx, hacc, by simp⟩
  | cons f rest ih =>
    intro acc gs h hacc hsrc
    simp only [dailyGroupsAux] at h
    cases hd : dateKeyE f with
    | error e => rw [hd] at h; cases h
    | ok d =>
      rw [hd] at h
      have hacc2 : ∀ q ∈ insertDay acc d f, BucketInv src q :=
        insertDay_inv src acc d f hacc hd (hsrc f (List.mem_cons_self _ _))
      have hsrc2 : ∀ g ∈ rest, g ∈ src := fun g hg => hsrc g (List.mem_cons_of_mem _ hg)
      obtain ⟨ihn, ihsub, ihinv, ihcov⟩ := ih (insertDay acc d f) gs h hacc2 hsrc2
      refine ⟨?_, ?_, ihinv, ?_⟩
      · intro hnd
        exact ihn (insertDay_nodup acc d f hnd)
      · exact fun x hx => ihsub (insertDay_keys_sub acc d f hx)
      · intro g hg d2 hg2
        rcases List.mem_cons.mp hg with h1 | h2
        · subst h1
          rw [hd] at hg2
          cases hg2
          exact ihsub (insertDay_key_mem acc d g)
        · exact ihcov g h2 d2 hg2

/-- A date key exists only when the entry's `dt_txt` is a string. -/
theorem dateKeyE_ok_dtTxt {f : JVal} {d : String} (h : dateKeyE f = .ok d) :
    ∃ s, dtTxtStrE f = .ok s := by
  unfold dateKeyE at h
  cases hk : dtTxtStrE f with
  | error e => rw [hk] at h; cases h
  | ok s => exact ⟨s, rfl⟩

/-- The midday test of an entry (false when the entry has no
string-valued timestamp text). -/
def noonOf (f : JVal) : Bool :=
  match noonHit f with
  | .ok b => b
  | .error _ => false

/-- The `next(...)` scan succeeds on a bucket of well-timestamped entries
and yields a member of the bucket or the default. -/
theorem firstNoon_mem (b : List JVal) (dflt : JVal)
    (hs : ∀ x ∈ b, ∃ s, dtTxtStrE x = .ok s) :
    ∃ r, firstNoon b dflt = .ok r ∧ (r ∈ b ∨ r = dflt) := by
  induction b with
  | nil => exact ⟨dflt, rfl, Or.inr rfl⟩
  | cons x xs ih =>
    obtain ⟨s, hx⟩ := hs x (List.mem_cons_self _ _)
    have hnoon : noonHit x = .ok (pyInStr "12:00:00" s) := by simp [noonHit, hx]
    by_cases hb : pyInStr "12:00:00" s = true
    · exact ⟨x, by simp [firstNoon, hnoon, hb], Or.inl (List.mem_cons_self _ _)⟩
    · obtain ⟨r, hr, hrmem⟩ := ih (fun y hy => hs y (List.mem_cons_of_mem _ hy))
      refine ⟨r, by simp [firstNoon, hnoon, hb, hr], ?_⟩
      rcases hrmem with h | h
      · exact Or.inl (List.mem_cons_of_mem _ h)
      · exact Or.inr h

/-- When no entry is at noon, the scan falls back to the default. -/
theorem firstNoon_none (b : List JVal) (dflt : JVal)
    (hs : ∀ x ∈ b, ∃ s, dtTxtStrE x = .ok s)
    (hn : ∀ x ∈ b, noonOf x = false) : firstNoon b dflt = .ok dflt := by
  induction b with
  | nil => rfl
  | cons x xs ih =>
    obtain ⟨s, hx⟩ := hs x (List.mem_cons_self _ _)
    have hnoon : noonHit x = .ok (pyInStr "12:00:00" s) := by simp [noonHit, hx]
    have hfalse : pyInStr "12:00:00" s = false := by
      have := hn x (List.mem_cons_self _ _)
      rw [noonOf, hnoon] at this
      exact this
    simp only [firstNoon, hnoon, hfalse]
    exact ih (fun y hy => hs y (List.mem_cons_of_mem _ hy))
      (fun y hy => hn y (List.mem_cons_of_mem _ hy))

/-- When some entry is at noon, the scan returns a noon entry of the bucket. -/
theorem firstNoon_found (b : List JVal) (dflt : JVal)
    (hs : ∀ x ∈ b, ∃ s, dtTxtStrE x = .ok s)
    (hex : ∃ x ∈ b, noonOf x = true) :
    ∃ r, firstNoon b dflt = .ok r ∧ r ∈ b ∧ noonOf r = true := by
  induction b with
  | nil => simp at hex
  | cons x xs ih =>
    obtain ⟨s, hx⟩ := hs x (List.mem_cons_self _ _)
    have hnoon : noonHit x = .ok (pyInStr "12:00:00" s) := by simp [noonHit, hx]
    by_cases hb : pyInStr "12:00:00" s = true
    · refine ⟨x, by simp [firstNoon, hnoon, hb], List.mem_cons_self _ _, ?_⟩
      rw [noonOf, hnoon]
      exact hb
    · have hex2 : ∃ y ∈ xs, noonOf y = true := by
        rcases hex with ⟨y, hy, hyn⟩
        rcases List.mem_cons.mp hy with h1 | h2
        · exfalso
          subst h1
          rw [noonOf, hnoon] at hyn
          exact hb hyn
        · exact ⟨y, h2, hyn⟩
      obtain ⟨r, hr, hrmem, hrn⟩ := ih (fun y hy => hs y (List.mem_cons_of_mem _ hy)) hex2
      exact ⟨r, by simp [firstNoon, hnoon, hb, hr], List.mem_cons_of_mem _ hrmem, hrn⟩

/-- On a non-empty bucket of well-timestamped entries the representative
selection succeeds and picks a member of the bucket. -/
theorem pickMid_mem (b : List JVal) (hne : b ≠ [])
    (hs : ∀ x ∈ b, ∃ s, dtTxtStrE x = .ok s) :
    ∃ r, pickMid b = .ok r ∧ r ∈ b := by
  have hlen : b.length / 2 < b.length :=
    Nat.div_lt_self (List.length_pos.mpr hne) (by norm_num)
  obtain ⟨dflt, hdflt⟩ : ∃ x, b.get? (b.length / 2) = some x := by
    rw [List.get?_eq_get hlen]
    exact ⟨_, rfl⟩
  have hdmem : dflt ∈ b := List.get?_mem hdflt
  have hidx : pyIndexList b (b.length / 2) = .ok dflt := by
    rw [pyIndexList, hdflt]
  obtain ⟨r, hr, hrmem⟩ := firstNoon_mem b dflt hs
  refine ⟨r, ?_, ?_⟩
  · simp only [pickMid, hidx, hr]
  · rcases hrmem with h | h
    · exact h
    · rw [h]; exact hdmem

/-- The dates of a forecast list, in order, one per successfully dated entry. -/
def datesOf (l : List JVal) : List String := l.filterMap (fun f => (dateKeyE f).toOption)

/-- C1: when the forecast list spans at least five distinct calendar days,
the grouping yields (after the `[:5]` truncation) exactly five buckets with
pairwise distinct dates, and each bucket's representative — selected by
source line 275 — is one of that date's entries. -/
theorem claim_C1 (entries : List JVal) (gs : List (String × List JVal))
    (hg : dailyGroups entries = .ok gs)
    (h5 : 5 ≤ (datesOf entries).dedup.length) :
    (gs.take 5).length = 5
    ∧ ((gs.take 5).map Prod.fst).Nodup
    ∧ ∀ q ∈ gs.take 5,
        (∃ r, pickMid q.2 = .ok r ∧ r ∈ q.2)
        ∧ ∀ x ∈ q.2, x ∈ entries ∧ dateKeyE x = .ok q.1 := by
  obtain ⟨hnod, _, hinv, hcov⟩ :=
    dailyGroupsAux_inv entries entries [] gs hg (by simp) (fun f hf => hf)
  have hnodup : (gs.map Prod.fst).Nodup := hnod (by simp)
  have hsub : (datesOf entries).dedup ⊆ gs.map Prod.fst := by
    intro d hd
    have hd2 : d ∈ datesOf entries := List.dedup_subset _ hd
    rcases List.mem_filterMap.mp hd2 with ⟨f, hf, hf2⟩
    have hok : dateKeyE f = .ok d := by
      cases hk : dateKeyE f with
      | error e => rw [hk] at hf2; simp [Except.toOption] at hf2
      | ok d0 =>
        rw [hk] at hf2
        simp only [Except.toOption, Option.some.injEq] at hf2
        rw [hf2]
    exact hcov f hf d hok
  have hlen5 : 5 ≤ gs.length := by
    have h1 : (datesOf entries).dedup.length ≤ (gs.map Prod.fst).length :=
      List.Subperm.length_le ((List.nodup_dedup _).subperm hsub)
    rw [List.length_map] at h1
    omega
  refine ⟨?_, ?_, ?_⟩
  · rw [List.length_take]
    omega
  · rw [List.map_take]
    exact hnodup.sublist (List.take_sublist 5 _)
  · intro q hq
    have hqgs : q ∈ gs := List.mem_of_mem_take hq
    obtain ⟨hne, hprop⟩ := hinv q hqgs
    refine ⟨?_, fun x hx => ⟨(hprop x hx).2, (hprop x hx).1⟩⟩
    exact pickMid_mem q.2 hne (fun x hx => dateKeyE_ok_dtTxt ((hprop x hx).1))

/-- C2: on a non-empty daily bucket of well-timestamped entries, the
representative is an entry whose timestamp text contains `12:00:00` when
one exists, and otherwise is the entry at index `len // 2` of the bucket. -/
theorem claim_C2 (b : List JVal) (hne : b ≠ [])
    (hs : ∀ x ∈ b, ∃ s, dtTxtStrE x = .ok s) :
    ((∃ x ∈ b, noonOf x = true) →
        ∃ r, pickMid b = .ok r ∧ r ∈ b ∧ noonOf r = true)
    ∧ ((∀ x ∈ b, noonOf x = false) →
        pickMid b = .ok (b.getD (b.length / 2) JVal.null)) := by
  have hlen : b.length / 2 < b.length :=
    Nat.div_lt_self (List.length_pos.mpr hne) (by norm_num)
  obtain ⟨dflt, hdflt⟩ : ∃ x, b.get? (b.length / 2) = some x := by
    rw [List.get?_eq_get hlen]
    exact ⟨_, rfl⟩
  have hidx : pyIndexList b (b.length / 2) = .ok dflt := by
    rw [pyIndexList, hdflt]
  have hgetD : b.getD (b.length / 2) JVal.null = dflt := by
    have h2 : b[b.length / 2]? = some dflt := by
      rw [← List.get?_eq_getElem?]
      exact hdflt
    simp [List.getD, h2]
  constructor
  · intro hex
    obtain ⟨r, hr, hrmem, hrn⟩ := firstNoon_found b dflt hs hex
    exact ⟨r, by simp only [pickMid, hidx, hr], hrmem, hrn⟩
  · intro hn
    rw [hgetD]
    simp only [pickMid, hidx]
    exact firstNoon_none b dflt hs hn

/-- A forecast entry carrying only a timestamp text, for witnesses. -/
def entT (txt : String) : JVal := .dict [("dt_txt", .s txt)]

/-- A six-entry forecast list spanning five distinct days. -/
def entries1 : List JVal :=
  [entT "2024-01-01 09:00:00", entT "2024-01-01 12:00:00", entT "2024-01-02 12:00:00",
   entT "2024-01-03 12:00:00", entT "2024-01-04 12:00:00", entT "2024-01-05 12:00:00"]

/-- The grouping the aggregator produces on `entries1`. -/
def gs1 : List (String × List JVal) :=
  match dailyGroups entries1 with
  | .ok g => g
  | .error _ => []

theorem claim_C1_witness : (gs1.take 5).length = 5 :=
  (claim_C1 entries1 gs1 rfl (by decide)).1

/-- A three-entry bucket whose middle entry is the noon entry. -/
def bucket2 : List JVal :=
  [entT "2024-01-01 09:00:00", entT "2024-01-01 12:00:00", entT "2024-01-01 15:00:00"]

theorem claim_C2_witness :
    ∃ r, pickMid bucket2 = .ok r ∧ r ∈ bucket2 ∧ noonOf r = true :=
  (claim_C2 bucket2 (by simp [bucket2]) (by
    intro x hx
    simp only [bucket2, List.mem_cons, List.not_mem_nil, or_false] at hx
    rcases hx with rfl | rfl | rfl
    · exact ⟨"2024-01-01 09:00:00", rfl⟩
    · exact ⟨"2024-01-01 12:00:00", rfl⟩
    · exact ⟨"2024-01-01 15:00:00", rfl⟩)).1
    ⟨entT "2024-01-01 12:00:00", by simp [bucket2], rfl⟩

/-! ### The forecast fetcher error contract (C6) -/

/-- A forecast payload whose application status code is the non-success
`"404"` while the HTTP transport status is 200. -/
def body404 : JVal :=
  .dict [("cod", .s "404"), ("message", .s "city not found"), ("list", .list [])]

/-- An environment delivering `body404` with HTTP status 200. -/
def envC6 : Env :=
  ⟨"Bangalore", .error "unused", .ok (200, body404), fun _ => .ok (), fun _ _ => .ok "t"⟩

/-- C6 counterexample: the payload's application status code is non-success
by the source's own comparison, yet `get_forecast` raises no API error —
its only event is the network request — and returns the parsed payload.
So the forecast fetcher does not share `get_weather`'s payload-status
error contract. -/
theorem claim_C6_counterexample :
    get_forecast envC6 = ([.netReq FORECAST_URL], .ok (some body404))
    ∧ pyGetOpt body404 "cod" = .ok (.s "404")
    ∧ pyNeInt (.s "404") 200 = true :=
  ⟨rfl, rfl, rfl⟩

/-- C6 amended: `get_forecast` decides success by the HTTP transport status
code, not by the payload status: on a non-200 HTTP status it signals an API
error carrying the remote-provided message and returns nothing, and on HTTP
status 200 it returns the parsed payload (when rendering succeeds)
regardless of the payload's application status code. -/
theorem claim_C6_amended (env : Env) (status : Int) (data msg : JVal)
    (fs : List (String × JVal))
    (hc : ¬ pyStrip env.cityText = "")
    (hn : env.forecastNet = .ok (status, data))
    (hd : data = JVal.dict fs)
    (hm : msg = (fs.lookup "message").getD (.s "Could not fetch forecast")) :
    (status ≠ 200 →
      get_forecast env = ([.netReq FORECAST_URL, .errBox "API error" (pyStr msg)], .ok none))
    ∧ (status = 200 → ∀ evts, forecastRender env data = (evts, .ok ()) →
      get_forecast env = (.netReq FORECAST_URL :: evts, .ok (some data))) := by
  constructor
  · intro hst
    simp only [get_forecast, if_neg hc, hn, if_neg hst]
    rw [hd, pyGetD, hm]
  · intro hst evts hrend
    subst hst
    simp [get_forecast, if_neg hc, hn, hrend]

/-- A forecast payload for the non-200 HTTP status witness. -/
def bodyA : JVal := .dict [("cod", .s "404"), ("message", .s "city not found")]

/-- An environment whose forecast request comes back with HTTP status 404. -/
def envA : Env :=
  ⟨"Bangalore", .error "unused", .ok (404, bodyA), fun _ => .ok (), fun _ _ => .ok "t"⟩

theorem claim_C6_amended_witness :
    get_forecast envA =
      ([.netReq FORECAST_URL, .errBox "API error" (pyStr (.s "city not found"))], .ok none) :=
  (claim_C6_amended envA 404 bodyA (.s "city not found")
    [("cod", .s "404"), ("message", .s "city not found")]
    (by decide) rfl rfl rfl).1 (by decide)

/-- The icon block never produces an error dialog. -/
theorem errBox_not_mem_iconEvents (env : Env) (u t m : String) :
    Event.errBox t m ∉ iconEvents env u := by
  unfold iconEvents
  cases env.iconNet u <;> simp


/-- C9: an icon-fetch or icon-decoding failure inside `get_weather` is
silently swallowed — the returned value is the parsed payload delivered by
the transport, unchanged under any icon outcome, and no error dialog
depends on the icon outcome. -/
theorem claim_C9 (env : Env) (r : String → Except String Unit) (d : JVal)
    (h : (get_weather env).2 = .ok (some d)) :
    env.weatherNet = .ok d
    ∧ (get_weather { env with iconNet := r }).2 = .ok (some d)
    ∧ ∀ t m, (Event.errBox t m ∈ (get_weather { env with iconNet := r }).1 ↔
        Event.errBox t m ∈ (get_weather env).1) := by
  obtain ⟨city, wnet, fnet, inet, gen⟩ := env
  by_cases hc : pyStrip city = ""
  · rw [get_weather] at h
    simp only [hc, if_pos rfl] at h
    cases h
  · rw [get_weather] at h
    simp only [if_neg hc] at h
    cases wnet with
    | error e => simp at h
    | ok data =>
      simp only at h
      rw [weatherHandle] at h
      split at h
      · simp at h
      · rename_i codv hcod
        split at h
        · split at h
          · simp at h
          · simp at h
        · rename_i hne
          split at h
          · simp at h
          · rename_i icon hex
            have hbranch : ∀ inet2 : String → Except String Unit,
                get_weather ⟨city, .ok data, fnet, inet2, gen⟩ =
                  (if pyTruthy icon then
                      .netReq BASE_URL ::
                        iconEvents ⟨city, .ok data, fnet, inet2, gen⟩ (iconUrl4 (pyStr icon))
                    else [.netReq BASE_URL], .ok (some data)) := by
              intro inet2
              rw [get_weather, if_neg hc]
              simp only
              rw [weatherHandle]
              simp only [hcod]
              rw [if_neg hne]
              simp only [hex]
              cases hti : pyTruthy icon <;> simp [hti]
            have hd2 : data = d := by
              split at h
              · simp at h
                exact h
              · simp at h
                exact h
            subst hd2
            refine ⟨rfl, ?_, ?_⟩
            · rw [hbranch r]
            · intro t m
              rw [hbranch r, hbranch inet]
              cases pyTruthy icon with
              | true =>
                simp only [if_pos rfl]
                constructor
                · intro hmem
                  rcases List.mem_cons.mp hmem with h1 | h2
                  · cases h1
                  · exact absurd h2 (errBox_not_mem_iconEvents _ _ t m)
                · intro hmem
                  rcases List.mem_cons.mp hmem with h1 | h2
                  · cases h1
                  · exact absurd h2 (errBox_not_mem_iconEvents _ _ t m)
              | false => simp

/-! ### Lemmas about `get_all_data` control flow -/

/-- Subscription succeeds only on a truthy (non-empty) dict. -/
theorem pyGetItem_ok_truthy {v : JVal} {k : String} {x : JVal} (h : pyGetItem v k = .ok x) :
    pyTruthy v = true := by
  cases v with
  | dict fs =>
    cases fs with
    | nil => simp [pyGetItem, List.lookup] at h
    | cons p rest => simp [pyTruthy]
  | null => simp [pyGetItem] at h
  | i n => simp [pyGetItem] at h
  | s t => simp [pyGetItem] at h
  | list xs => simp [pyGetItem] at h

/-- A payload returned by a successful `get_weather` run is truthy: it is a
dict that passed the `cod == 200` check, hence non-empty. -/
theorem get_weather_truthy (env : Env) (d : JVal)
    (h : (get_weather env).2 = .ok (some d)) : pyTruthy d = true := by
  obtain ⟨city, wnet, fnet, inet, gen⟩ := env
  by_cases hc : pyStrip city = ""
  · rw [get_weather] at h
    simp only [hc, if_pos rfl] at h
    cases h
  · rw [get_weather] at h
    simp only [if_neg hc] at h
    cases wnet with
    | error e => simp at h
    | ok data =>
      simp only at h
      rw [weatherHandle] at h
      split at h
      · simp at h
      · rename_i codv hcod
        split at h
        · split at h <;> simp at h
        · rename_i hne
          split at h
          · simp at h
          · have hd2 : data = d := by
              split at h <;> (simp at h; exact h)
            subst hd2
            cases data with
            | dict fs =>
              have hcodv : codv = (fs.lookup "cod").getD .null := by
                simp [pyGetOpt] at hcod
                exact hcod.symm
              cases hlk : fs.lookup "cod" with
              | none =>
                rw [hlk] at hcodv
                simp at hcodv
                subst hcodv
                simp [pyNeInt] at hne
              | some v =>
                cases fs with
                | nil => simp [List.lookup] at hlk
                | cons p rest => simp [pyTruthy]
            | null => simp [pyGetOpt] at hcod
            | i n => simp [pyGetOpt] at hcod
            | s v => simp [pyGetOpt] at hcod
            | list xs => simp [pyGetOpt] at hcod

/-- A payload whose daily cards rendered is truthy: `data['list']`
succeeded. -/
theorem display_forecast_ok_truthy (env : Env) (data : JVal) {evts : List Event} {u : Unit}
    (h : display_forecast env data = (evts, .ok u)) : pyTruthy data = true := by
  rw [display_forecast] at h
  split at h
  · simp at h
  · rename_i lst hbind
    cases hgi : pyGetItem data "list" with
    | error e =>
      rw [hgi] at hbind
      simp [Bind.bind, Except.bind] at hbind
    | ok v => exact pyGetItem_ok_truthy hgi

/-- A payload returned by a successful `get_forecast` run is truthy. -/
theorem get_forecast_truthy (env : Env) (d : JVal)
    (h : (get_forecast env).2 = .ok (some d)) : pyTruthy d = true := by
  obtain ⟨city, wnet, fnet, inet, gen⟩ := env
  by_cases hc : pyStrip city = ""
  · rw [get_forecast] at h
    simp only [hc, if_pos rfl] at h
    cases h
  · rw [get_forecast] at h
    simp only [if_neg hc] at h
    cases fnet with
    | error e => simp at h
    | ok sd =>
      obtain ⟨status, data⟩ := sd
      simp only at h
      split at h
      · rcases hfr : forecastRender ⟨city, wnet, Except.ok (status, data), inet, gen⟩ data
          with ⟨evts, res⟩
        rw [hfr] at h
        cases res with
        | error e => simp at h
        | ok u =>
          cases u
          simp only at h
          have hd2 : data = d := by simpa using h
          subst hd2
          rw [forecastRender] at hfr
          rcases hdf : display_forecast ⟨city, wnet, Except.ok (status, data), inet, gen⟩ data
            with ⟨evts2, res2⟩
          rw [hdf] at hfr
          cases res2 with
          | error e => simp at hfr
          | ok u2 =>
            cases u2
            exact display_forecast_ok_truthy _ _ hdf
      · split at h <;> simp at h

/-- The icon block never shows the advisory. -/
theorem advisory_not_mem_iconEvents (env : Env) (u t : String) :
    Event.advisoryShown t ∉ iconEvents env u := by
  unfold iconEvents
  cases env.iconNet u <;> simp

/-- A day card never shows the advisory. -/
theorem advisory_not_mem_dayCard (env : Env) (date : String) (fcs : List JVal) (t : String) :
    Event.advisoryShown t ∉ (dayCard env date fcs).1 := by
  rw [dayCard]
  split
  · simp
  · split
    · exact advisory_not_mem_iconEvents _ _ t
    · exact advisory_not_mem_iconEvents _ _ t

/-- The card loop never shows the advisory. -/
theorem advisory_not_mem_renderDayCards (env : Env) (l : List (String × List JVal))
    (t : String) : Event.advisoryShown t ∉ (renderDayCards env l).1 := by
  induction l with
  | nil => simp [renderDayCards]
  | cons p rest ih =>
    obtain ⟨date, fcs⟩ := p
    rw [renderDayCards]
    rcases hdc : dayCard env date fcs with ⟨evts, res⟩
    have hevts := advisory_not_mem_dayCard env date fcs t
    rw [hdc] at hevts
    cases res with
    | error e => exact hevts
    | ok u =>
      cases u
      intro hmem
      rcases List.mem_append.mp hmem with h1 | h2
      · exact hevts h1
      · exact ih h2

/-- `display_forecast` never shows the advisory. -/
theorem advisory_not_mem_display (env : Env) (data : JVal) (t : String) :
    Event.advisoryShown t ∉ (display_forecast env data).1 := by
  rw [display_forecast]
  split
  · simp
  · split
    · simp
    · exact advisory_not_mem_renderDayCards env _ t

/-- The forecast rendering adds no event beyond the daily cards. -/
theorem forecastRender_fst (env : Env) (data : JVal) :
    (forecastRender env data).1 = (display_forecast env data).1 := by
  rw [forecastRender]
  rcases hdf : display_forecast env data with ⟨evts, res⟩
  cases res with
  | error e => rfl
  | ok u =>
    cases u
    cases display_forecast_table data <;> rfl

/-- The forecast rendering never shows the advisory. -/
theorem advisory_not_mem_forecastRender (env : Env) (data : JVal) (t : String) :
    Event.advisoryShown t ∉ (forecastRender env data).1 := by
  rw [forecastRender_fst]
  exact advisory_not_mem_display env data t

/-- `get_weather` never shows the advisory. -/
theorem advisory_not_mem_get_weather (env : Env) (t : String) :
    Event.advisoryShown t ∉ (get_weather env).1 := by
  obtain ⟨city, wnet, fnet, inet, gen⟩ := env
  rw [get_weather]
  split
  · simp
  · cases wnet with
    | error e => simp
    | ok data =>
      simp only
      rw [weatherHandle]
      split
      · simp
      · split
        · split
          · simp
          · simp
        · split
          · simp
          · split
            · intro hmem
              rcases List.mem_cons.mp hmem with h1 | h2
              · cases h1
              · exact absurd h2 (advisory_not_mem_iconEvents _ _ t)
            · simp

/-- `get_forecast` never shows the advisory. -/
theorem advisory_not_mem_get_forecast (env : Env) (t : String) :
    Event.advisoryShown t ∉ (get_forecast env).1 := by
  obtain ⟨city, wnet, fnet, inet, gen⟩ := env
  rw [get_forecast]
  split
  · simp
  · cases fnet with
    | error e => simp
    | ok sd =>
      obtain ⟨status, data⟩ := sd
      simp only
      split
      · rcases hfr : forecastRender ⟨city, wnet, Except.ok (status, data), inet, gen⟩ data
          with ⟨evts, res⟩
        have hevts := advisory_not_mem_forecastRender
          ⟨city, wnet, Except.ok (status, data), inet, gen⟩ data t
        rw [hfr] at hevts
        cases res with
        | error e =>
          intro hmem
          rcases List.mem_cons.mp hmem with h1 | h2
          · cases h1
          · exact hevts h2
        | ok u =>
          cases u
          intro hmem
          rcases List.mem_cons.mp hmem with h1 | h2
          · cases h1
          · exact hevts h2
      · split
        · simp
        · simp

/-- C8: in every completed run of `get_all_data`, the advisory is shown if
and only if both fetchers returned a payload; in runs aborted by an
exception the advisory is never shown. -/
theorem claim_C8 (env : Env) :
    (∀ evts, get_all_data env = (evts, .ok ()) →
      ((∃ t, Event.advisoryShown t ∈ evts) ↔
        (∃ dw, (get_weather env).2 = .ok (some dw))
          ∧ (∃ df, (get_forecast env).2 = .ok (some df))))
    ∧ (∀ evts e, get_all_data env = (evts, .error e) →
        ∀ t, Event.advisoryShown t ∉ evts) := by
  by_cases hc : pyStrip env.cityText = ""
  · constructor
    · intro evts h
      rw [get_all_data, if_pos hc] at h
      cases h
      constructor
      · rintro ⟨t, ht⟩
        simp at ht
      · rintro ⟨⟨dw, hdw⟩, -⟩
        rw [get_weather, if_pos hc] at hdw
        simp at hdw
    · intro evts e h
      rw [get_all_data, if_pos hc] at h
      simp at h
  · constructor
    · intro evts h
      rw [get_all_data, if_neg hc] at h
      rcases hw : get_weather env with ⟨evtsW, resW⟩
      rw [hw] at h
      cases resW with
      | error e => simp at h
      | ok wres =>
        simp only at h
        rcases hf : get_forecast env with ⟨evtsF, resF⟩
        rw [hf] at h
        cases resF with
        | error e => simp at h
        | ok fres =>
          simp only at h
          by_cases htw : (pyTruthyOpt wres && pyTruthyOpt fres) = true
          · rw [if_pos htw] at h
            obtain ⟨ai, hai⟩ := analyze_total env.gen (wres.getD .null) (fres.getD .null)
            rw [hai] at h
            simp only at h
            cases h
            have hand := Bool.and_eq_true_iff.mp htw
            constructor
            · intro _
              cases wres with
              | none => simp [pyTruthyOpt] at hand
              | some dw =>
                cases fres with
                | none =>
                  rcases hand with ⟨-, h2⟩
                  simp [pyTruthyOpt] at h2
                | some df =>
                  exact ⟨⟨dw, rfl⟩, ⟨df, rfl⟩⟩
            · intro _
              exact ⟨ai, by simp⟩
          · rw [if_neg htw] at h
            cases h
            constructor
            · rintro ⟨t, ht⟩
              exfalso
              rcases List.mem_append.mp ht with h1 | h2
              · have hnm := advisory_not_mem_get_weather env t
                rw [hw] at hnm
                exact hnm h1
              · have hnm := advisory_not_mem_get_forecast env t
                rw [hf] at hnm
                exact hnm h2
            · rintro ⟨⟨dw, hdw⟩, ⟨df, hdf⟩⟩
              exfalso
              apply htw
              have hdw2 : (get_weather env).2 = .ok (some dw) := by rw [hw]; exact hdw
              have hdf2 : (get_forecast env).2 = .ok (some df) := by rw [hf]; exact hdf
              have hwt : pyTruthy dw = true := get_weather_truthy env dw hdw2
              have hft : pyTruthy df = true := get_forecast_truthy env df hdf2
              have hw2 : wres = some dw := by simpa using hdw
              have hf2 : fres = some df := by simpa using hdf
              subst hw2
              subst hf2
              simp [pyTruthyOpt, hwt, hft]
    · intro evts e h
      rw [get_all_data, if_neg hc] at h
      rcases hw : get_weather env with ⟨evtsW, resW⟩
      rw [hw] at h
      cases resW with
      | error e2 =>
        cases h
        intro t
        have hnm := advisory_not_mem_get_weather env t
        rw [hw] at hnm
        exact hnm
      | ok wres =>
        simp only at h
        rcases hf : get_forecast env with ⟨evtsF, resF⟩
        rw [hf] at h
        cases resF with
        | error e2 =>
          simp only at h
          cases h
          intro t hmem
          rcases List.mem_append.mp hmem with h1 | h2
          · have hnm := advisory_not_mem_get_weather env t
            rw [hw] at hnm
            exact hnm h1
          · have hnm := advisory_not_mem_get_forecast env t
            rw [hf] at hnm
            exact hnm h2
        | ok fres =>
          simp only at h
          by_cases htw : (pyTruthyOpt wres && pyTruthyOpt fres) = true
          · rw [if_pos htw] at h
            obtain ⟨ai, hai⟩ := analyze_total env.gen (wres.getD .null) (fres.getD .null)
            rw [hai] at h
            simp at h
          · rw [if_neg htw] at h
            simp at h

/-- A well-formed current-weather payload for concrete runs. -/
def wData : JVal :=
  .dict [("cod", .i 200), ("name", .s "Bangalore"),
    ("main", .dict [("temp", .i 25), ("humidity", .i 50), ("pressure", .i 1000),
      ("feels_like", .i 26)]),
    ("weather", .list [.dict [("description", .s "clear sky"), ("icon", .s "01d")]]),
    ("wind", .dict [("speed", .i 3)]), ("coord", .dict [("lat", .i 12), ("lon", .i 77)])]

/-- A well-formed forecast payload (empty entry list) for concrete runs. -/
def fData : JVal := .dict [("cod", .s "200"), ("list", .list [])]

/-- An environment on which both fetches and the advisory succeed. -/
def envOk : Env :=
  ⟨"Bangalore", .ok wData, .ok (200, fData), fun _ => .ok (), fun _ _ => .ok "sunny advice"⟩

theorem claim_C8_witness :
    ∃ t, Event.advisoryShown t ∈ (get_all_data envOk).1 :=
  ((claim_C8 envOk).1 (get_all_data envOk).1 rfl).mpr ⟨⟨wData, rfl⟩, ⟨fData, rfl⟩⟩

theorem claim_C9_witness :
    envOk.weatherNet = .ok wData
    ∧ (get_weather { envOk with iconNet := fun _ => .error "icon failure" }).2 =
        .ok (some wData)
    ∧ ∀ t m, (Event.errBox t m ∈
          (get_weather { envOk with iconNet := fun _ => .error "icon failure" }).1 ↔
        Event.errBox t m ∈ (get_weather envOk).1) :=
  claim_C9 envOk (fun _ => .error "icon failure") wData rfl
